import Mathlib

/-!
Verification of the Prompt-ops backend orchestration core.

The JavaScript source (src/services/geminiService.js, src/chatbot.js) is
shallowly embedded below.  External collaborators of the core — the remote
Gemini API, the JavaScript `JSON.parse` builtin, the upload staging
filesystem and the session-id generator — are modelled as explicit
parameters of the embedded operations, so every theorem quantifies over
their behaviour.  Machine details that cannot affect any stated property
(retry sleep delays, jitter, console logging, the base64 transcoding of
attachment bytes, which is a bijection on byte strings) are elided and
noted at the definition site.
-/

/-! ## JavaScript string primitives

`jsToLower` models `String.prototype.toLowerCase`, `includesB` models
`String.prototype.includes`, both on the character-list view of strings.
-/

def jsToLower (s : List Char) : List Char := s.map Char.toLower

def startsWithChars : List Char → List Char → Bool
  | [], _ => true
  | _ :: _, [] => false
  | a :: as, b :: bs => a == b && startsWithChars as bs

def includesB (needle : List Char) : List Char → Bool
  | [] => startsWithChars needle []
  | c :: cs => startsWithChars needle (c :: cs) || includesB needle cs

/-! ## Content classifiers

Three classifier functions appear in the source:
* `detectContentType` in src/services/geminiService.js (stateless path),
  a prioritized keyword table folded with strict-improvement updates;
* the second `detectContentType` in the same file (chat path), same
  algorithm over a presentation/document table;
* `detectContentType` in src/chatbot.js, a sequential if-chain.
-/

structure KeywordGroup where
  name : String
  keywords : List String
  priority : Nat

def serviceKeywordTable : List KeywordGroup :=
  [ ⟨"lessonPlan", ["lesson plan"], 1⟩,
    ⟨"assignment", ["assignment"], 2⟩,
    ⟨"quiz", ["quiz", "quizzes"], 2⟩,
    ⟨"lecture", ["lecture"], 3⟩ ]

def chatKeywordTable : List KeywordGroup :=
  [ ⟨"presentation", ["ppt", "presentation", "powerpoint", "slides"], 1⟩,
    ⟨"document", ["pdf", "docx", "document", "report"], 2⟩ ]

/-- The keyword-table fold of both `detectContentType` functions in
src/services/geminiService.js: `bestMatch` starts at (default, 99) and is
replaced whenever a keyword of a group occurs in the lowercased prompt and
the group's priority is strictly smaller. -/
def detectOverTable (table : List KeywordGroup) (prompt : String) : String :=
  let lower := jsToLower prompt.data
  (table.foldl
    (fun best g =>
      g.keywords.foldl
        (fun b kw =>
          if includesB kw.data lower && decide (g.priority < b.2) then
            (g.name, g.priority)
          else b)
        best)
    ("default", 99)).1

/-- src/services/geminiService.js `detectContentType` (stateless path). -/
def detectContentType (prompt : String) : String :=
  detectOverTable serviceKeywordTable prompt

/-- src/services/geminiService.js `detectContentType` (chat path). -/
def detectChatContentType (prompt : String) : String :=
  detectOverTable chatKeywordTable prompt

/-- src/chatbot.js `detectContentType`: the sequential if-chain. -/
def detectContentTypeBot (prompt : String) : String :=
  let lower := jsToLower prompt.data
  if includesB ("lesson plan").data lower then "lessonPlan"
  else if includesB ("assignment").data lower then "assignment"
  else if includesB ("quiz").data lower || includesB ("quizzes").data lower then "quiz"
  else if includesB ("lecture").data lower then "lecture"
  else "default"

/-! Claim-side restatement of the classifier contract (spec §4.2): among the
groups with a keyword occurring in the prompt, the lowest priority number
wins and ties go to the earliest declared group; no match yields default. -/

def groupMatches (prompt : String) (g : KeywordGroup) : Bool :=
  g.keywords.any (fun kw => includesB kw.data (jsToLower prompt.data))

/-- Earliest group of minimal priority, following the spec wording: keep the
current group unless a strictly smaller priority appears later. -/
def minimalByPriority : List KeywordGroup → Option KeywordGroup
  | [] => none
  | g :: gs =>
    match minimalByPriority gs with
    | none => some g
    | some h => if h.priority < g.priority then some h else some g

/-- The classifier as the spec's words describe it. -/
def claimClassify (table : List KeywordGroup) (prompt : String) : String :=
  match minimalByPriority (table.filter (groupMatches prompt)) with
  | none => "default"
  | some g => g.name

/-! ## Quiz question-count extraction

Models the regex match `prompt.match(/(\d+)\s*question/i)` of the quiz
branch in `generateStructuredContent`: the leftmost position where a
nonempty ASCII digit run, optional whitespace and the letters "question"
(case-insensitively) occur in sequence; `parseInt` of the digit group, 20
when there is no match.  Since no shorter digit run can ever rescue a
failed literal match, the backtracking of `\d+` never matters and the
leftmost match is the first position where the maximal digit run succeeds.
-/

def jsWhitespace (c : Char) : Bool :=
  c = ' ' || c = '\t' || c = '\n' || c = '\x0b' || c = '\x0c' || c = '\x0d' || c = '\xa0'

def digitsTake : List Char → List Char × List Char
  | [] => ([], [])
  | c :: cs =>
    if c.isDigit then
      let p := digitsTake cs
      (c :: p.1, p.2)
    else ([], c :: cs)

def wsSkip : List Char → List Char
  | [] => []
  | c :: cs => if jsWhitespace c then wsSkip cs else c :: cs

def digitsVal (ds : List Char) : Nat :=
  ds.foldl (fun n c => 10 * n + (c.toNat - ('0').toNat)) 0

/-- One attempted regex match anchored at the head of `cs`. -/
def matchQuestionAt (cs : List Char) : Option Nat :=
  let p := digitsTake cs
  if p.1 = [] then none
  else if startsWithChars ("question").data (jsToLower (wsSkip p.2)) then some (digitsVal p.1)
  else none

/-- Leftmost-match regex scan. -/
def firstQuestionMatch : List Char → Option Nat
  | [] => none
  | c :: cs =>
    match matchQuestionAt (c :: cs) with
    | some n => some n
    | none => firstQuestionMatch cs

/-- `match ? parseInt(match[1]) : 20` of the quiz branch. -/
def quizQuestionCount (prompt : String) : Nat :=
  (firstQuestionMatch prompt.data).getD 20

/-! Claim-side restatement (spec §4.3): "the first integer immediately
preceding the word question/questions".  An integer of the prompt is a
maximal digit run, so the scan below only attempts a match where a digit
run starts (previous character absent or not a digit). -/

def claimFirstInt : Option Char → List Char → Option Nat
  | _, [] => none
  | prev, c :: cs =>
    if (match prev with | some d => d.isDigit | none => false) then
      claimFirstInt (some c) cs
    else
      match matchQuestionAt (c :: cs) with
      | some n => some n
      | none => claimFirstInt (some c) cs

def claimQuizCount (prompt : String) : Nat :=
  (claimFirstInt none prompt.data).getD 20

/-! ## Schemas and JSON values

The schema objects of src/services/geminiService.js.  The `description`
annotation strings of some properties are elided: they are prose hints to
the model and play no role in any field/type requirement.  The stray type
tag "XML/HTML" of `PresentationSchema.slides.items.slideCode` is kept as an
uninterpreted tag. -/

inductive SchemaDesc where
  | sString : SchemaDesc
  | sInteger : SchemaDesc
  | sArray (items : SchemaDesc) : SchemaDesc
  | sObject (props : List (String × SchemaDesc)) (required : List String) : SchemaDesc
  | sOther (tag : String) : SchemaDesc

def DefaultSchema : SchemaDesc :=
  .sObject
    [("title", .sString), ("summary", .sString), ("content", .sString)]
    ["title", "summary", "content"]

def LessonPlanSchema : SchemaDesc :=
  .sObject
    [("title", .sString), ("gradeLevel", .sString), ("duration", .sString),
     ("learningObjectives", .sArray .sString), ("keyTerms", .sArray .sString),
     ("hookIntroduction", .sString), ("mainActivity", .sString), ("assessment", .sString)]
    ["title", "gradeLevel", "duration", "learningObjectives", "keyTerms",
     "hookIntroduction", "mainActivity", "assessment"]

def AssignmentSchema : SchemaDesc :=
  .sObject
    [("title", .sString), ("instructions", .sString),
     ("submissionCriteria", .sString), ("rubric", .sString)]
    ["title", "instructions", "submissionCriteria", "rubric"]

def QuizSchema : SchemaDesc :=
  .sObject
    [("title", .sString),
     ("questions", .sArray (.sObject
        [("questionNumber", .sInteger), ("question", .sString),
         ("choices", .sArray .sString), ("correctAnswer", .sString)]
        ["questionNumber", "question", "choices", "correctAnswer"]))]
    ["title", "questions"]

def LectureSchema : SchemaDesc :=
  .sObject
    [("title", .sString), ("duration", .sString),
     ("keyConcepts", .sArray .sString), ("script", .sString)]
    ["title", "duration", "keyConcepts", "script"]

def WebSearchResultSchema : SchemaDesc :=
  .sObject
    [("title", .sString), ("url", .sString), ("snippet", .sString)]
    ["title", "url", "snippet"]

def PresentationSchema : SchemaDesc :=
  .sObject
    [("title", .sString),
     ("simulatedSources", .sArray WebSearchResultSchema),
     ("slides", .sArray (.sObject
        [("slideNumber", .sInteger), ("title", .sString),
         ("content", .sArray .sString), ("speakerNotes", .sString),
         ("slideCode", .sOther "XML/HTML")]
        ["slideNumber", "title", "content", "speakerNotes"]))]
    ["title", "simulatedSources", "slides"]

def DocumentSchema : SchemaDesc :=
  .sObject
    [("title", .sString),
     ("simulatedSources", .sArray WebSearchResultSchema),
     ("summary", .sString),
     ("sections", .sArray (.sObject
        [("subtitle", .sString), ("content", .sString)]
        ["subtitle", "content"]))]
    ["title", "simulatedSources", "summary", "sections"]

def GeneralContentSchema : SchemaDesc :=
  .sObject
    [("title", .sString), ("summary", .sString), ("content", .sString)]
    ["title", "summary", "content"]

/-- Parsed JSON values, the result type of the modelled `JSON.parse`. -/
inductive JValue where
  | jNull : JValue
  | jBool (b : Bool) : JValue
  | jNum (n : Int) : JValue
  | jStr (s : String) : JValue
  | jArr (xs : List JValue) : JValue
  | jObj (fields : List (String × JValue)) : JValue

def lookupField : List (String × JValue) → String → Option JValue
  | [], _ => none
  | (k, v) :: rest, n => if k = n then some v else lookupField rest n

/-- Claim-side conformance check, from the spec's words (§3 invariants):
the value carries every required field of the schema and every declared
property that is present has the declared type. -/
def conforms (s : SchemaDesc) (v : JValue) : Bool :=
  match s, v with
  | SchemaDesc.sString, JValue.jStr _ => true
  | SchemaDesc.sInteger, JValue.jNum _ => true
  | SchemaDesc.sOther _, _ => true
  | SchemaDesc.sArray it, JValue.jArr xs => xs.all (fun x => conforms it x)
  | SchemaDesc.sObject props req, JValue.jObj fields =>
      (req.all (fun r => (lookupField fields r).isSome)) &&
      (props.attach.all (fun p =>
        match lookupField fields p.1.1 with
        | none => true
        | some w => conforms p.1.2 w))
  | _, _ => false
termination_by sizeOf s
decreasing_by
  · simp_wf
  · obtain ⟨⟨a, b⟩, hmem⟩ := p
    have h1 := List.sizeOf_lt_of_mem hmem
    simp_wf
    simp only [Prod.mk.sizeOf_spec] at h1
    omega

/-! ## Errors and the retrying invoker

`JsError` models a thrown JavaScript error: its message and the optional
numeric `status` field the retry wrappers inspect.  `withRetry` is the
loop of both source files, parameterized by the transient-error test of
the respective file; the sleep delay, jitter and console logging of a
retry iteration carry no information used by any claim and are elided.
A run of the loop is driven by `api`, the outcome the remote call would
produce on each 0-indexed attempt; the JS loop can fall through only when
`maxRetries = 0` (returning `undefined`), modelled by the `none` result.
-/

structure JsError where
  message : String
  status : Option Nat
deriving DecidableEq

/-- `error.status === 429 || error.status === 503` in
src/services/geminiService.js `withRetry`. -/
def transientSvc (e : JsError) : Bool :=
  e.status == some 429 || e.status == some 503

/-- `error.status === 429` in src/chatbot.js `withRetry`. -/
def transientBot (e : JsError) : Bool :=
  e.status == some 429

/-- The retry loop, by structural recursion on the remaining attempt
budget: `withRetryGo tr api fuel attempt` runs the loop body for
`attempt, attempt+1, ...` while `fuel` iterations remain, so the JS loop
bound `attempt < maxRetries` holds exactly while `fuel > 0` and the
last-attempt test `attempt === maxRetries - 1` is exactly `fuel = 1`.
`none` is the `undefined` a zero-budget loop falls through to. -/
def withRetryGo {α : Type} (tr : JsError → Bool) (api : Nat → Except JsError α) :
    Nat → Nat → Option (Except JsError α)
  | 0, _ => none
  | fuel + 1, attempt =>
    match api attempt with
    | Except.ok a => some (Except.ok a)
    | Except.error e =>
      if tr e then
        if fuel = 0 then some (Except.error e)
        else withRetryGo tr api fuel (attempt + 1)
      else some (Except.error e)

def withRetry {α : Type} (tr : JsError → Bool) (api : Nat → Except JsError α)
    (maxRetries : Nat) : Option (Except JsError α) :=
  withRetryGo tr api maxRetries 0

/-- Number of invocations of the wrapped operation a run performs. -/
def withRetryCallsGo {α : Type} (tr : JsError → Bool) (api : Nat → Except JsError α) :
    Nat → Nat → Nat
  | 0, _ => 0
  | fuel + 1, attempt =>
    match api attempt with
    | Except.ok _ => 1
    | Except.error e =>
      if tr e then
        if fuel = 0 then 1
        else 1 + withRetryCallsGo tr api fuel (attempt + 1)
      else 1

def withRetryCalls {α : Type} (tr : JsError → Bool) (api : Nat → Except JsError α)
    (maxRetries : Nat) : Nat :=
  withRetryCallsGo tr api maxRetries 0

/-! ## Request payloads, turns and ambient state -/

/-- A part of a turn: `{text}` or the `{inlineData: {data, mimeType}}`
produced by `fileToGenerativePart`.  The base64 transcoding
`Buffer.from(fs.readFileSync(path)).toString("base64")` is a bijection on
byte strings and is modelled by carrying the read bytes themselves. -/
inductive MsgPart where
  | text (s : String) : MsgPart
  | inlineData (dat : String) (mimeType : String) : MsgPart

structure Turn where
  role : String
  parts : List MsgPart

structure GenConfig where
  systemInstruction : String
  responseMimeType : String
  responseSchema : SchemaDesc

structure RequestPayload where
  model : String
  contents : List Turn
  config : GenConfig

structure ApiResponse where
  text : String

structure FileInfo where
  filename : String
  mimetype : String

/-- The staging filesystem: contents of `join(__dirname, "..", "uploads")`
by path. -/
def Fs : Type := String → Option String

def emptyF : Fs := fun _ => none

def removeF (fs : Fs) (path : String) : Fs :=
  fun q => if q = path then none else fs q

/-- `join(tempDir, file.filename)` for the uploads staging directory. -/
def uploadsPath (filename : String) : String := "uploads/" ++ filename

/-- The in-memory `chatHistories` object: histories by session id. -/
def Sessions : Type := String → Option (List Turn)

def emptyS : Sessions := fun _ => none

def setS (st : Sessions) (sid : String) (h : List Turn) : Sessions :=
  fun q => if q = sid then some h else st q

def onceWrapError : JsError :=
  ⟨"Failed to generate a structured response from the AI model.", none⟩

def chatWrapError : JsError :=
  ⟨"Failed to get a structured response from the AI model.", none⟩

def invalidSessionError : JsError :=
  ⟨"Invalid session ID. Please start a new session.", none⟩

/-! ## Schema registry -/

/-- The `switch (contentType)` of `generateStructuredContent` in
src/services/geminiService.js: schema and system instruction for the
detected label; the quiz instruction interpolates the extracted question
count. -/
def resolveOnce (contentType : String) (prompt : String) : SchemaDesc × String :=
  if contentType = "lessonPlan" then
    (LessonPlanSchema,
     "You are an expert curriculum designer. Generate a comprehensive, long-form, and detailed lesson plan based on the user\x27s prompt, adhering strictly to the provided JSON schema. Ensure all fields contain thorough information.")
  else if contentType = "assignment" then
    (AssignmentSchema,
     "You are an educator creating a detailed student assignment. Generate long-form, comprehensive instructions and criteria, adhering strictly to the provided JSON schema.")
  else if contentType = "quiz" then
    (QuizSchema,
     "You are a test creator. Generate a comprehensive quiz with exactly " ++
       toString (quizQuestionCount prompt) ++
       " questions based on the user\x27s prompt, adhering strictly to the provided JSON schema.")
  else if contentType = "lecture" then
    (LectureSchema,
     "You are a university professor preparing a lecture. Generate a detailed, comprehensive, and long-form lecture script suitable for the requested time span, adhering strictly to the provided JSON schema.")
  else
    (DefaultSchema,
     "You are a helpful AI assistant. Generate a long-form, comprehensive, and detailed response with a title, summary, and content, adhering strictly to the provided JSON schema.")

/-- The `switch (contentType)` of `sendMessage`. -/
def resolveChat (contentType : String) : SchemaDesc × String :=
  if contentType = "presentation" then
    (PresentationSchema,
     "You are a research assistant creating a presentation. First, Gather sources by finding 3-5 relevant web sources. Then, use that synthesized information to generate a comprehensive slide deck, adhering strictly to the provided JSON schema. Provide HTML in the last feild for each slide that can be used to create presentation slides.")
  else if contentType = "document" then
    (DocumentSchema,
     "You are a professional writer creating a formal document. First, simulate a web search by generating 3-5 relevant sources. Then, based on that simulated research, write a comprehensive document, adhering strictly to the provided JSON schema.")
  else
    (GeneralContentSchema,
     "You are a helpful AI assistant. Generate a long-form, comprehensive response with a title, summary, and content, adhering strictly to the provided JSON schema.")

/-! ## Orchestration: stateless generation

`generateOnce` embeds `generateStructuredContent` of
src/services/geminiService.js.  Besides the parsed-or-failed result it
records the final staging filesystem, the payload the remote API was
invoked with (`none` when the call never reached the API) and how many
times the wrapped remote operation ran.  The surrounding `try/catch`
replaces every thrown error by `onceWrapError`. -/

structure OnceOutcome where
  result : Except JsError JValue
  fs : Fs
  request : Option RequestPayload
  apiCalls : Nat

/-- The part of `generateStructuredContent` after attachment handling:
invoke through `withRetry`, then `JSON.parse(result.text)`. -/
def onceRequest (parts : List MsgPart) (sel : SchemaDesc × String) : RequestPayload :=
  ⟨"gemini-2.5-pro", [⟨"user", parts⟩], ⟨sel.2, "application/json", sel.1⟩⟩

def generateOncePhase2 (parse : String → Except JsError JValue)
    (api : Nat → Except JsError ApiResponse) (fs1 : Fs)
    (parts : List MsgPart) (sel : SchemaDesc × String) : OnceOutcome :=
  match withRetry transientSvc api 5 with
  | some (Except.ok r) =>
    match parse r.text with
    | Except.ok v =>
      ⟨Except.ok v, fs1, some (onceRequest parts sel), withRetryCalls transientSvc api 5⟩
    | Except.error _ =>
      ⟨Except.error onceWrapError, fs1, some (onceRequest parts sel),
       withRetryCalls transientSvc api 5⟩
  | some (Except.error _) =>
    ⟨Except.error onceWrapError, fs1, some (onceRequest parts sel),
     withRetryCalls transientSvc api 5⟩
  | none =>
    ⟨Except.error onceWrapError, fs1, some (onceRequest parts sel),
     withRetryCalls transientSvc api 5⟩

/-- `generateStructuredContent(prompt, file)`: classify, resolve schema and
instruction, read/encode/delete the staged attachment when present, then
invoke and parse. -/
def generateOnce (parse : String → Except JsError JValue)
    (api : Nat → Except JsError ApiResponse) (fs0 : Fs)
    (prompt : String) (file : Option FileInfo) : OnceOutcome :=
  match file with
  | none =>
    generateOncePhase2 parse api fs0 [MsgPart.text prompt]
      (resolveOnce (detectContentType prompt) prompt)
  | some f =>
    match fs0 (uploadsPath f.filename) with
    | none => ⟨Except.error onceWrapError, fs0, none, 0⟩
    | some bytes =>
      generateOncePhase2 parse api (removeF fs0 (uploadsPath f.filename))
        [MsgPart.text prompt, MsgPart.inlineData bytes f.mimetype]
        (resolveOnce (detectContentType prompt) prompt)

/-! ## Orchestration: stateful messaging -/

structure SendOutcome where
  result : Except JsError JValue
  sessions : Sessions
  fs : Fs
  request : Option (List Turn)
  apiCalls : Nat

/-- The part of `sendMessage` after the user message is built: push the
user turn onto the history, invoke with the whole history, parse, and on
success push the model turn. -/
def sendMessagePhase2 (parse : String → Except JsError JValue)
    (api : Nat → Except JsError ApiResponse) (st : Sessions) (fs1 : Fs)
    (sid : String) (hist : List Turn) (userMessage : Turn) : SendOutcome :=
  match withRetry transientSvc api 5 with
  | some (Except.ok r) =>
    match parse r.text with
    | Except.ok v =>
      ⟨Except.ok v,
       setS st sid ((hist ++ [userMessage]) ++ [⟨"model", [MsgPart.text r.text]⟩]),
       fs1, some (hist ++ [userMessage]), withRetryCalls transientSvc api 5⟩
    | Except.error _ =>
      ⟨Except.error chatWrapError, setS st sid (hist ++ [userMessage]), fs1,
       some (hist ++ [userMessage]), withRetryCalls transientSvc api 5⟩
  | some (Except.error _) =>
    ⟨Except.error chatWrapError, setS st sid (hist ++ [userMessage]), fs1,
     some (hist ++ [userMessage]), withRetryCalls transientSvc api 5⟩
  | none =>
    ⟨Except.error chatWrapError, setS st sid (hist ++ [userMessage]), fs1,
     some (hist ++ [userMessage]), withRetryCalls transientSvc api 5⟩

/-- `sendMessage(sessionId, prompt, file)` of src/services/geminiService.js.
The unknown-session check precedes the `try`, so its error is raised
unwrapped; inside the `try` every failure is replaced by `chatWrapError`.
The schema and instruction selected by `resolveChat` do not influence the
stored history, but the request transcript is recorded. -/
def sendMessage (parse : String → Except JsError JValue)
    (api : Nat → Except JsError ApiResponse) (st : Sessions) (fs0 : Fs)
    (sid : String) (prompt : String) (file : Option FileInfo) : SendOutcome :=
  match st sid with
  | none => ⟨Except.error invalidSessionError, st, fs0, none, 0⟩
  | some hist =>
    match file with
    | none =>
      sendMessagePhase2 parse api st fs0 sid hist ⟨"user", [MsgPart.text prompt]⟩
    | some f =>
      match fs0 (uploadsPath f.filename) with
      | none => ⟨Except.error chatWrapError, st, fs0, none, 0⟩
      | some bytes =>
        sendMessagePhase2 parse api st (removeF fs0 (uploadsPath f.filename)) sid hist
          ⟨"user", [MsgPart.text prompt, MsgPart.inlineData bytes f.mimetype]⟩

/-- `startChatSession()`: the fresh identifier produced by `randomUUID()`
is a parameter; the session map gains an empty history under it. -/
def startChatSession (st : Sessions) (newId : String) : String × Sessions :=
  (newId, setS st newId [])

/-! ## Reachable session states

`Reachable ids st` holds when the session store `st` can be produced by
some sequence of `startChatSession` and `sendMessage` calls (with any
ambient parse/API/filesystem behaviour, each call succeeding or failing),
`ids` collecting the identifiers handed out by `startChatSession`.
`OkReachable st` further requires every `sendMessage` of the sequence to
have succeeded. -/

inductive Reachable : List String → Sessions → Prop where
  | init : Reachable [] emptyS
  | start : ∀ ids st id, Reachable ids st →
      Reachable (id :: ids) (startChatSession st id).2
  | send : ∀ ids st parse api fs sid prompt file, Reachable ids st →
      Reachable ids (sendMessage parse api st fs sid prompt file).sessions

inductive OkReachable : Sessions → Prop where
  | init : OkReachable emptyS
  | start : ∀ st id, OkReachable st → OkReachable (startChatSession st id).2
  | send : ∀ st parse api fs sid prompt file v, OkReachable st →
      (sendMessage parse api st fs sid prompt file).result = Except.ok v →
      OkReachable (sendMessage parse api st fs sid prompt file).sessions

/-- History alternation from a given role: the claim's invariant shape. -/
def altFrom (r : String) : List Turn → Bool
  | [] => true
  | t :: ts => t.role == r && altFrom (if r == "user" then "model" else "user") ts

def alternatesFromUser (h : List Turn) : Bool := altFrom "user" h

/-- A history made of complete user/model exchange pairs. -/
def isPairs : List Turn → Bool
  | [] => true
  | u :: m :: rest => u.role == "user" && m.role == "model" && isPairs rest
  | _ :: [] => false

/-! ## Retry policy lemmas -/

theorem withRetryGo_ok {α : Type} (tr : JsError → Bool) (api : Nat → Except JsError α)
    (k : Nat) (a : α) (hok : api k = Except.ok a) :
    ∀ fuel i, i ≤ k → k < i + fuel →
      (∀ j, i ≤ j → j < k → ∃ e, api j = Except.error e ∧ tr e = true) →
      withRetryGo tr api fuel i = some (Except.ok a) := by
  intro fuel
  induction fuel with
  | zero => intro i h1 h2 _; omega
  | succ fuel ih =>
    intro i h1 h2 hprev
    by_cases hik : i = k
    · subst hik
      unfold withRetryGo
      rw [hok]
    · have hik2 : i < k := by omega
      obtain ⟨e, he, htr⟩ := hprev i le_rfl hik2
      have hf : ¬ fuel = 0 := by omega
      unfold withRetryGo
      rw [he]
      simp only [htr, if_true, hf, if_false]
      exact ih (i + 1) (by omega) (by omega) (fun j hj1 hj2 => hprev j (by omega) hj2)

theorem withRetryGo_fatal {α : Type} (tr : JsError → Bool) (api : Nat → Except JsError α)
    (k : Nat) (e : JsError) (he : api k = Except.error e) (hne : tr e = false) :
    ∀ fuel i, i ≤ k → k < i + fuel →
      (∀ j, i ≤ j → j < k → ∃ e2, api j = Except.error e2 ∧ tr e2 = true) →
      withRetryGo tr api fuel i = some (Except.error e) := by
  intro fuel
  induction fuel with
  | zero => intro i h1 h2 _; omega
  | succ fuel ih =>
    intro i h1 h2 hprev
    by_cases hik : i = k
    · subst hik
      unfold withRetryGo
      rw [he]
      simp [hne]
    · have hik2 : i < k := by omega
      obtain ⟨e2, he2, htr2⟩ := hprev i le_rfl hik2
      have hf : ¬ fuel = 0 := by omega
      unfold withRetryGo
      rw [he2]
      simp only [htr2, if_true, hf, if_false]
      exact ih (i + 1) (by omega) (by omega) (fun j hj1 hj2 => hprev j (by omega) hj2)

theorem withRetryCallsGo_fatal {α : Type} (tr : JsError → Bool) (api : Nat → Except JsError α)
    (k : Nat) (e : JsError) (he : api k = Except.error e) (hne : tr e = false) :
    ∀ fuel i, i ≤ k → k < i + fuel →
      (∀ j, i ≤ j → j < k → ∃ e2, api j = Except.error e2 ∧ tr e2 = true) →
      withRetryCallsGo tr api fuel i = k + 1 - i := by
  intro fuel
  induction fuel with
  | zero => intro i h1 h2 _; omega
  | succ fuel ih =>
    intro i h1 h2 hprev
    by_cases hik : i = k
    · subst hik
      unfold withRetryCallsGo
      rw [he]
      simp [hne]
    · have hik2 : i < k := by omega
      obtain ⟨e2, he2, htr2⟩ := hprev i le_rfl hik2
      have hf : ¬ fuel = 0 := by omega
      unfold withRetryCallsGo
      rw [he2]
      simp only [htr2, if_true, hf, if_false]
      rw [ih (i + 1) (by omega) (by omega) (fun j hj1 hj2 => hprev j (by omega) hj2)]
      omega

theorem withRetryGo_exhaust {α : Type} (tr : JsError → Bool) (api : Nat → Except JsError α)
    (maxR : Nat) (e : JsError)
    (hall : ∀ j, j < maxR → ∃ e2, api j = Except.error e2 ∧ tr e2 = true)
    (hlast : api (maxR - 1) = Except.error e) :
    ∀ fuel i, i + fuel = maxR → i < maxR →
      withRetryGo tr api fuel i = some (Except.error e) := by
  intro fuel
  induction fuel with
  | zero => intro i h1 h2; omega
  | succ fuel ih =>
    intro i h1 h2
    obtain ⟨e2, he2, htr2⟩ := hall i (by omega)
    by_cases hf : fuel = 0
    · have hi : i = maxR - 1 := by omega
      subst hi
      rw [he2] at hlast
      cases hlast
      unfold withRetryGo
      rw [he2]
      simp [htr2, hf]
    · unfold withRetryGo
      rw [he2]
      simp only [htr2, if_true, hf, if_false]
      exact ih (i + 1) (by omega) (by omega)

/-! ## Session store and pipeline lemmas -/

theorem setS_same (st : Sessions) (sid : String) (h : List Turn) :
    setS st sid h sid = some h := by
  simp [setS]

theorem setS_other (st : Sessions) (sid q : String) (h : List Turn) (hq : q ≠ sid) :
    setS st sid h q = st q := by
  simp [setS, hq]

theorem sendMessagePhase2_sessions (parse : String → Except JsError JValue)
    (api : Nat → Except JsError ApiResponse) (st : Sessions) (fs1 : Fs)
    (sid : String) (hist : List Turn) (u : Turn) :
    ∃ h2, (sendMessagePhase2 parse api st fs1 sid hist u).sessions = setS st sid h2 := by
  unfold sendMessagePhase2
  cases hr : withRetry transientSvc api 5 with
  | none => simp only; exact ⟨_, rfl⟩
  | some x =>
    cases x with
    | error e => simp only; exact ⟨_, rfl⟩
    | ok r =>
      cases hp : parse r.text with
      | error e => simp only [hp]; exact ⟨_, rfl⟩
      | ok v => simp only [hp]; exact ⟨_, rfl⟩

theorem sendMessagePhase2_fs (parse : String → Except JsError JValue)
    (api : Nat → Except JsError ApiResponse) (st : Sessions) (fs1 : Fs)
    (sid : String) (hist : List Turn) (u : Turn) :
    (sendMessagePhase2 parse api st fs1 sid hist u).fs = fs1 := by
  unfold sendMessagePhase2
  cases hr : withRetry transientSvc api 5 with
  | none => rfl
  | some x =>
    cases x with
    | error e => rfl
    | ok r =>
      cases hp : parse r.text with
      | error e => simp only [hp]
      | ok v => simp only [hp]

theorem generateOncePhase2_fs (parse : String → Except JsError JValue)
    (api : Nat → Except JsError ApiResponse) (fs1 : Fs)
    (parts : List MsgPart) (sel : SchemaDesc × String) :
    (generateOncePhase2 parse api fs1 parts sel).fs = fs1 := by
  unfold generateOncePhase2
  cases hr : withRetry transientSvc api 5 with
  | none => rfl
  | some x =>
    cases x with
    | error e => rfl
    | ok r =>
      cases hp : parse r.text with
      | error e => simp only [hp]
      | ok v => simp only [hp]

theorem sendMessagePhase2_ok (parse : String → Except JsError JValue)
    (api : Nat → Except JsError ApiResponse) (st : Sessions) (fs1 : Fs)
    (sid : String) (hist : List Turn) (u : Turn) (v : JValue)
    (h : (sendMessagePhase2 parse api st fs1 sid hist u).result = Except.ok v) :
    ∃ r, withRetry transientSvc api 5 = some (Except.ok r) ∧
      parse r.text = Except.ok v ∧
      (sendMessagePhase2 parse api st fs1 sid hist u).sessions
        = setS st sid (hist ++ [u, ⟨"model", [MsgPart.text r.text]⟩]) ∧
      (sendMessagePhase2 parse api st fs1 sid hist u).request = some (hist ++ [u]) := by
  unfold sendMessagePhase2 at h ⊢
  cases hr : withRetry transientSvc api 5 with
  | none => simp only [hr] at h; exact Except.noConfusion h
  | some x =>
    cases x with
    | error e => simp only [hr] at h; exact Except.noConfusion h
    | ok r =>
      simp only [hr] at h ⊢
      cases hp : parse r.text with
      | error e => simp only [hp] at h; exact Except.noConfusion h
      | ok w =>
        simp only [hp] at h ⊢
        cases h
        refine ⟨r, rfl, hp, ?_, trivial⟩
        rw [List.append_assoc]
        rfl

theorem sendMessage_ok (parse : String → Except JsError JValue)
    (api : Nat → Except JsError ApiResponse) (st : Sessions) (fs0 : Fs)
    (sid : String) (prompt : String) (file : Option FileInfo) (v : JValue)
    (h : (sendMessage parse api st fs0 sid prompt file).result = Except.ok v) :
    ∃ hist u r,
      st sid = some hist ∧
      u.role = "user" ∧ u.parts.head? = some (MsgPart.text prompt) ∧
      withRetry transientSvc api 5 = some (Except.ok r) ∧
      parse r.text = Except.ok v ∧
      (sendMessage parse api st fs0 sid prompt file).sessions
        = setS st sid (hist ++ [u, ⟨"model", [MsgPart.text r.text]⟩]) ∧
      (sendMessage parse api st fs0 sid prompt file).request = some (hist ++ [u]) := by
  unfold sendMessage at h ⊢
  cases hl : st sid with
  | none => simp only [hl] at h; exact Except.noConfusion h
  | some hist =>
    simp only [hl] at h ⊢
    cases file with
    | none =>
      obtain ⟨r, h1, h2, h3, h4⟩ := sendMessagePhase2_ok parse api st fs0 sid hist
        ⟨"user", [MsgPart.text prompt]⟩ v h
      exact ⟨hist, ⟨"user", [MsgPart.text prompt]⟩, r, rfl, rfl, rfl, h1, h2, h3, h4⟩
    | some f =>
      simp only at h ⊢
      cases hf : fs0 (uploadsPath f.filename) with
      | none => simp only [hf] at h; exact Except.noConfusion h
      | some bytes =>
        simp only [hf] at h ⊢
        obtain ⟨r, h1, h2, h3, h4⟩ :=
          sendMessagePhase2_ok parse api st (removeF fs0 (uploadsPath f.filename)) sid hist
            ⟨"user", [MsgPart.text prompt, MsgPart.inlineData bytes f.mimetype]⟩ v h
        exact ⟨hist, ⟨"user", [MsgPart.text prompt, MsgPart.inlineData bytes f.mimetype]⟩, r,
          rfl, rfl, rfl, h1, h2, h3, h4⟩

theorem sendMessage_preserves_none (parse : String → Except JsError JValue)
    (api : Nat → Except JsError ApiResponse) (st : Sessions) (fs0 : Fs)
    (sid : String) (prompt : String) (file : Option FileInfo) (q : String)
    (hq : st q = none) :
    (sendMessage parse api st fs0 sid prompt file).sessions q = none := by
  unfold sendMessage
  cases hl : st sid with
  | none => exact hq
  | some hist =>
    have hne : q ≠ sid := by
      intro he
      rw [he, hl] at hq
      cases hq
    simp only
    cases file with
    | none =>
      obtain ⟨h2, hs⟩ := sendMessagePhase2_sessions parse api st fs0 sid hist
        ⟨"user", [MsgPart.text prompt]⟩
      simp only [hs, setS_other st sid q h2 hne]
      exact hq
    | some f =>
      simp only
      cases hf : fs0 (uploadsPath f.filename) with
      | none => exact hq
      | some bytes =>
        simp only [hf]
        obtain ⟨h2, hs⟩ := sendMessagePhase2_sessions parse api st
          (removeF fs0 (uploadsPath f.filename)) sid hist
          ⟨"user", [MsgPart.text prompt, MsgPart.inlineData bytes f.mimetype]⟩
        simp only [hs, setS_other st sid q h2 hne]
        exact hq

theorem reachable_not_created (ids : List String) (st : Sessions)
    (h : Reachable ids st) : ∀ sid, sid ∉ ids → st sid = none := by
  induction h with
  | init => intro sid _; rfl
  | start ids st id _ ih =>
    intro sid hs
    have hne : sid ≠ id := by
      intro he
      exact hs (he ▸ List.mem_cons_self id ids)
    have hnm : sid ∉ ids := fun hm => hs (List.mem_cons_of_mem id hm)
    show setS st id [] sid = none
    rw [setS_other st id sid [] hne]
    exact ih sid hnm
  | send ids st parse api fs sid0 prompt file _ ih =>
    intro sid hs
    exact sendMessage_preserves_none parse api st fs sid0 prompt file sid (ih sid hs)

/-! ## Alternation lemmas -/

theorem isPairs_append (u m : Turn) (hu : u.role = "user") (hm : m.role = "model") :
    ∀ h : List Turn, isPairs h = true → isPairs (h ++ [u, m]) = true
  | [], _ => by simp [isPairs, hu, hm]
  | [a], hp => by simp [isPairs] at hp
  | a :: b :: rest, hp => by
    simp only [isPairs, Bool.and_eq_true, beq_iff_eq] at hp
    obtain ⟨⟨h1, h2⟩, h3⟩ := hp
    simp only [List.cons_append, isPairs, Bool.and_eq_true, beq_iff_eq]
    exact ⟨⟨h1, h2⟩, isPairs_append u m hu hm rest h3⟩

theorem isPairs_alternates : ∀ h : List Turn, isPairs h = true → alternatesFromUser h = true
  | [], _ => rfl
  | [a], hp => by simp [isPairs] at hp
  | a :: b :: rest, hp => by
    simp only [isPairs, Bool.and_eq_true, beq_iff_eq] at hp
    obtain ⟨⟨h1, h2⟩, h3⟩ := hp
    have hrest := isPairs_alternates rest h3
    simp only [alternatesFromUser] at hrest ⊢
    simp only [altFrom, Bool.and_eq_true, beq_iff_eq]
    exact ⟨h1, h2, hrest⟩

theorem okReachable_isPairs (st : Sessions) (h : OkReachable st) :
    ∀ sid hist, st sid = some hist → isPairs hist = true := by
  induction h with
  | init => intro sid hist hl; cases hl
  | start st id _ ih =>
    intro sid hist hl
    by_cases he : sid = id
    · subst he
      rw [show (startChatSession st sid).2 = setS st sid [] from rfl, setS_same] at hl
      cases hl
      rfl
    · rw [show (startChatSession st id).2 = setS st id [] from rfl,
        setS_other st id sid [] he] at hl
      exact ih sid hist hl
  | send st parse api fs sid0 prompt file v _ hok ih =>
    intro sid hist hl
    obtain ⟨hist0, u, r, hlook, hurole, _, _, _, hsess, _⟩ :=
      sendMessage_ok parse api st fs sid0 prompt file v hok
    rw [hsess] at hl
    by_cases he : sid = sid0
    · subst he
      rw [setS_same] at hl
      cases hl
      exact isPairs_append u _ hurole rfl hist0 (ih sid hist0 hlook)
    · rw [setS_other st sid0 sid _ he] at hl
      exact ih sid hist hl

/-! ## Quiz-count lemmas -/

theorem matchQuestionAt_cons_digit (c : Char) (cs : List Char)
    (hd : c.isDigit = true) (h : matchQuestionAt (c :: cs) = none) :
    matchQuestionAt cs = none := by
  unfold matchQuestionAt at h ⊢
  simp only [digitsTake, hd, if_true] at h
  by_cases hs : startsWithChars ("question").data (jsToLower (wsSkip (digitsTake cs).2)) = true
  · simp [hs] at h
  · by_cases he : (digitsTake cs).1 = [] <;> simp [he, hs]

theorem claimFirstInt_eq : ∀ (cs : List Char) (prev : Option Char),
    (∀ d, prev = some d → d.isDigit = true → matchQuestionAt (d :: cs) = none) →
    claimFirstInt prev cs = firstQuestionMatch cs
  | [], prev, _ => by cases prev <;> rfl
  | c :: cs, prev, hp => by
    unfold claimFirstInt firstQuestionMatch
    cases prev with
    | none =>
      simp only
      cases hm : matchQuestionAt (c :: cs) with
      | some n => simp [hm]
      | none =>
        simp only [hm]
        exact claimFirstInt_eq cs (some c) (by
          intro d hd hdig
          cases hd
          exact hm)
    | some d =>
      by_cases hdig : d.isDigit = true
      · simp only [hdig, if_true]
        have hnone := hp d rfl hdig
        have hcs : matchQuestionAt (c :: cs) = none :=
          matchQuestionAt_cons_digit d (c :: cs) hdig hnone
        rw [hcs]
        exact claimFirstInt_eq cs (some c) (by
          intro e he hedig
          cases he
          exact hcs)
      · simp only [Bool.not_eq_true] at hdig
        simp only [hdig, if_false]
        cases hm : matchQuestionAt (c :: cs) with
        | some n => simp [hm]
        | none =>
          simp only [hm]
          exact claimFirstInt_eq cs (some c) (by
            intro e he hedig
            cases he
            exact hm)

theorem quizQuestionCount_eq_claim (p : String) : quizQuestionCount p = claimQuizCount p := by
  unfold quizQuestionCount claimQuizCount
  rw [claimFirstInt_eq p.data none (by intro d hd; cases hd)]

/-! ## More pipeline lemmas -/

theorem withRetry_first_ok {α : Type} (tr : JsError → Bool) (api : Nat → Except JsError α)
    (maxR : Nat) (a : α) (hm : 1 ≤ maxR) (h : api 0 = Except.ok a) :
    withRetry tr api maxR = some (Except.ok a) := by
  cases maxR with
  | zero => omega
  | succ m =>
    unfold withRetry withRetryGo
    rw [h]

theorem withRetryCalls_first_ok {α : Type} (tr : JsError → Bool) (api : Nat → Except JsError α)
    (maxR : Nat) (a : α) (hm : 1 ≤ maxR) (h : api 0 = Except.ok a) :
    withRetryCalls tr api maxR = 1 := by
  cases maxR with
  | zero => omega
  | succ m =>
    unfold withRetryCalls withRetryCallsGo
    rw [h]

theorem generateOncePhase2_okok (parse : String → Except JsError JValue)
    (api : Nat → Except JsError ApiResponse) (fs1 : Fs)
    (parts : List MsgPart) (sel : SchemaDesc × String) (r : ApiResponse) (v : JValue)
    (hr : withRetry transientSvc api 5 = some (Except.ok r))
    (hp : parse r.text = Except.ok v) :
    generateOncePhase2 parse api fs1 parts sel =
      ⟨Except.ok v, fs1, some (onceRequest parts sel), withRetryCalls transientSvc api 5⟩ := by
  unfold generateOncePhase2
  simp only [hr, hp]

theorem generateOncePhase2_parseErr (parse : String → Except JsError JValue)
    (api : Nat → Except JsError ApiResponse) (fs1 : Fs)
    (parts : List MsgPart) (sel : SchemaDesc × String) (r : ApiResponse) (e : JsError)
    (hr : withRetry transientSvc api 5 = some (Except.ok r))
    (hp : parse r.text = Except.error e) :
    generateOncePhase2 parse api fs1 parts sel =
      ⟨Except.error onceWrapError, fs1, some (onceRequest parts sel),
       withRetryCalls transientSvc api 5⟩ := by
  unfold generateOncePhase2
  simp only [hr, hp]

theorem sendMessagePhase2_parseErr (parse : String → Except JsError JValue)
    (api : Nat → Except JsError ApiResponse) (st : Sessions) (fs1 : Fs)
    (sid : String) (hist : List Turn) (u : Turn) (r : ApiResponse) (e : JsError)
    (hr : withRetry transientSvc api 5 = some (Except.ok r))
    (hp : parse r.text = Except.error e) :
    sendMessagePhase2 parse api st fs1 sid hist u =
      ⟨Except.error chatWrapError, setS st sid (hist ++ [u]), fs1,
       some (hist ++ [u]), withRetryCalls transientSvc api 5⟩ := by
  unfold sendMessagePhase2
  simp only [hr, hp]

theorem sendMessagePhase2_request (parse : String → Except JsError JValue)
    (api : Nat → Except JsError ApiResponse) (st : Sessions) (fs1 : Fs)
    (sid : String) (hist : List Turn) (u : Turn) :
    (sendMessagePhase2 parse api st fs1 sid hist u).request = some (hist ++ [u]) := by
  unfold sendMessagePhase2
  cases hr : withRetry transientSvc api 5 with
  | none => rfl
  | some x =>
    cases x with
    | error e => rfl
    | ok r =>
      cases hp : parse r.text with
      | error e => simp only [hp]
      | ok v => simp only [hp]

theorem sendMessage_request_shape (parse : String → Except JsError JValue)
    (api : Nat → Except JsError ApiResponse) (st : Sessions) (fs0 : Fs)
    (sid : String) (prompt : String) (file : Option FileInfo) (c : List Turn)
    (h : (sendMessage parse api st fs0 sid prompt file).request = some c) :
    ∃ hist u2, st sid = some hist ∧ c = hist ++ [u2] := by
  unfold sendMessage at h
  cases hl : st sid with
  | none => simp only [hl] at h; exact Option.noConfusion h
  | some hist =>
    simp only [hl] at h
    cases file with
    | none =>
      rw [sendMessagePhase2_request] at h
      cases h
      exact ⟨hist, _, rfl, rfl⟩
    | some f =>
      simp only at h
      cases hf : fs0 (uploadsPath f.filename) with
      | none => simp only [hf] at h; exact Option.noConfusion h
      | some bytes =>
        simp only [hf] at h
        rw [sendMessagePhase2_request] at h
        cases h
        exact ⟨hist, _, rfl, rfl⟩

/-! ## Classifier lemmas -/

theorem detectContentType_eq_claim (p : String) :
    detectContentType p = claimClassify serviceKeywordTable p := by
  unfold detectContentType detectOverTable claimClassify serviceKeywordTable groupMatches
  cases h1 : includesB ("lesson plan").data (jsToLower p.data) <;>
  cases h2 : includesB ("assignment").data (jsToLower p.data) <;>
  cases h3 : includesB ("quiz").data (jsToLower p.data) <;>
  cases h4 : includesB ("quizzes").data (jsToLower p.data) <;>
  cases h5 : includesB ("lecture").data (jsToLower p.data) <;>
  simp [List.foldl, List.filter, List.any, minimalByPriority, h1, h2, h3, h4, h5]

theorem detectContentTypeBot_eq_svc (p : String) :
    detectContentTypeBot p = detectContentType p := by
  unfold detectContentType detectOverTable detectContentTypeBot serviceKeywordTable
  cases h1 : includesB ("lesson plan").data (jsToLower p.data) <;>
  cases h2 : includesB ("assignment").data (jsToLower p.data) <;>
  cases h3 : includesB ("quiz").data (jsToLower p.data) <;>
  cases h4 : includesB ("quizzes").data (jsToLower p.data) <;>
  cases h5 : includesB ("lecture").data (jsToLower p.data) <;>
  simp [List.foldl, h1, h2, h3, h4, h5]

/-! ## Concrete environment instances used by witnesses and counterexamples

`parseStub` agrees with the JavaScript `JSON.parse` on every string it is
applied to below: `"[]"` parses to the empty array and the other inputs
used (`"not json"` etc.) are not valid JSON and fail with a syntax error.
-/

def parseStub : String → Except JsError JValue := fun s =>
  if s = "[]" then Except.ok (JValue.jArr [])
  else Except.error ⟨"SyntaxError: Unexpected token", none⟩

def apiOk : Nat → Except JsError ApiResponse := fun _ => Except.ok ⟨"[]"⟩

def apiBad : Nat → Except JsError ApiResponse := fun _ => Except.ok ⟨"not json"⟩

def apiBoom : Nat → Except JsError ApiResponse := fun _ => Except.error ⟨"boom", none⟩

def cexBotApi : Nat → Except JsError Nat :=
  fun n => if n = 0 then Except.error ⟨"Service Unavailable", some 503⟩ else Except.ok 42

/-! ## Claim theorems -/

/-- C5: for every prompt, the stateless `detectContentType` returns the
label of the matched keyword group with the lowest priority number among
all groups with a keyword occurring case-insensitively as a substring of
the prompt (position-independent); declaration order breaks priority ties;
with no match it returns "default".  In particular the prompt
"write an assignment for a lecture" classifies as "assignment". -/
theorem claim5_classifier_priority :
    (∀ p : String, detectContentType p = claimClassify serviceKeywordTable p) ∧
    detectContentType "write an assignment for a lecture" = "assignment" := by
  constructor
  · exact detectContentType_eq_claim
  · decide

/-- C10: the sequential if-chain classifier of src/chatbot.js and the
priority-table classifier of src/services/geminiService.js (stateless
path) compute the same label for every prompt string. -/
theorem claim10_classifiers_agree (p : String) :
    detectContentTypeBot p = detectContentType p :=
  detectContentTypeBot_eq_svc p

/-- C6: for every prompt, the question count interpolated into the quiz
system instruction is the first integer immediately preceding the word
"question"/"questions" (case-insensitive, any amount of whitespace
between them), defaulting to 20 when absent; the schema selected for the
quiz label is `QuizSchema` in both cases.  In particular
"Make a quiz with 15 questions" yields 15 and "Make a quiz" yields 20,
and both prompts classify as quiz. -/
theorem claim6_quiz_count :
    (∀ p : String, quizQuestionCount p = claimQuizCount p) ∧
    (∀ p : String, (resolveOnce "quiz" p).1 = QuizSchema) ∧
    (∀ p : String, (resolveOnce "quiz" p).2 =
      "You are a test creator. Generate a comprehensive quiz with exactly " ++
        toString (claimQuizCount p) ++
        " questions based on the user\x27s prompt, adhering strictly to the provided JSON schema.") ∧
    detectContentType "Make a quiz with 15 questions" = "quiz" ∧
    quizQuestionCount "Make a quiz with 15 questions" = 15 ∧
    detectContentType "Make a quiz" = "quiz" ∧
    quizQuestionCount "Make a quiz" = 20 := by
  refine ⟨quizQuestionCount_eq_claim, fun p => rfl, fun p => ?_, by decide, by decide, by decide, by decide⟩
  rw [← quizQuestionCount_eq_claim p]
  rfl

/-- C4 (counterexample): the claim treats a 503 (temporarily-unavailable)
failure as transient for both `withRetry` implementations, but the
src/chatbot.js `withRetry` retries only on 429: with a first-attempt 503
and a second attempt that would succeed, it re-raises the 503 immediately
instead of retrying. -/
theorem claim4_counterexample :
    transientSvc ⟨"Service Unavailable", some 503⟩ = true ∧
    cexBotApi 0 = Except.error ⟨"Service Unavailable", some 503⟩ ∧
    cexBotApi 1 = Except.ok 42 ∧
    withRetry transientBot cexBotApi 5
      = some (Except.error ⟨"Service Unavailable", some 503⟩) ∧
    withRetryCalls transientBot cexBotApi 5 = 1 :=
  ⟨rfl, rfl, rfl, rfl, rfl⟩

/-- C4 (amended): for both implementations, with `maxAttempts ≥ 1`: an
attempt failing with an error the implementation classifies as transient
is retried up to `maxAttempts` total attempts and the final permitted
attempt's transient error is re-raised; a non-transient error is re-raised
immediately after exactly the attempts made so far (no further attempt);
a successful attempt's result is returned.  The transient class is
status 429 or 503 for the src/services/geminiService.js `withRetry`, but
only status 429 for the src/chatbot.js `withRetry`. -/
theorem claim4_retry_policy_amended :
    (∀ (α : Type) (api : Nat → Except JsError α) (maxAttempts k : Nat) (a : α),
      k < maxAttempts →
      (∀ j, j < k → ∃ e, api j = Except.error e ∧ transientSvc e = true) →
      api k = Except.ok a →
      withRetry transientSvc api maxAttempts = some (Except.ok a)) ∧
    (∀ (α : Type) (api : Nat → Except JsError α) (maxAttempts k : Nat) (e : JsError),
      k < maxAttempts →
      (∀ j, j < k → ∃ e2, api j = Except.error e2 ∧ transientSvc e2 = true) →
      api k = Except.error e → transientSvc e = false →
      withRetry transientSvc api maxAttempts = some (Except.error e) ∧
      withRetryCalls transientSvc api maxAttempts = k + 1) ∧
    (∀ (α : Type) (api : Nat → Except JsError α) (maxAttempts : Nat) (e : JsError),
      1 ≤ maxAttempts →
      (∀ j, j < maxAttempts → ∃ e2, api j = Except.error e2 ∧ transientSvc e2 = true) →
      api (maxAttempts - 1) = Except.error e →
      withRetry transientSvc api maxAttempts = some (Except.error e)) ∧
    (∀ (α : Type) (api : Nat → Except JsError α) (maxAttempts k : Nat) (a : α),
      k < maxAttempts →
      (∀ j, j < k → ∃ e, api j = Except.error e ∧ transientBot e = true) →
      api k = Except.ok a →
      withRetry transientBot api maxAttempts = some (Except.ok a)) ∧
    (∀ (α : Type) (api : Nat → Except JsError α) (maxAttempts k : Nat) (e : JsError),
      k < maxAttempts →
      (∀ j, j < k → ∃ e2, api j = Except.error e2 ∧ transientBot e2 = true) →
      api k = Except.error e → transientBot e = false →
      withRetry transientBot api maxAttempts = some (Except.error e) ∧
      withRetryCalls transientBot api maxAttempts = k + 1) ∧
    (∀ (α : Type) (api : Nat → Except JsError α) (maxAttempts : Nat) (e : JsError),
      1 ≤ maxAttempts →
      (∀ j, j < maxAttempts → ∃ e2, api j = Except.error e2 ∧ transientBot e2 = true) →
      api (maxAttempts - 1) = Except.error e →
      withRetry transientBot api maxAttempts = some (Except.error e)) ∧
    (∀ e : JsError, transientSvc e = true ↔ (e.status = some 429 ∨ e.status = some 503)) ∧
    (∀ e : JsError, transientBot e = true ↔ e.status = some 429) := by
  refine ⟨?_, ?_, ?_, ?_, ?_, ?_, ?_, ?_⟩
  · intro α api maxA k a hk hall hok
    exact withRetryGo_ok transientSvc api k a hok maxA 0 (Nat.zero_le k) (by omega)
      (fun j _ hj => hall j hj)
  · intro α api maxA k e hk hall he hne
    constructor
    · exact withRetryGo_fatal transientSvc api k e he hne maxA 0 (Nat.zero_le k) (by omega)
        (fun j _ hj => hall j hj)
    · have := withRetryCallsGo_fatal transientSvc api k e he hne maxA 0 (Nat.zero_le k)
        (by omega) (fun j _ hj => hall j hj)
      rw [withRetryCalls, this]
      omega
  · intro α api maxA e hm hall hlast
    exact withRetryGo_exhaust transientSvc api maxA e hall hlast maxA 0 (by omega) (by omega)
  · intro α api maxA k a hk hall hok
    exact withRetryGo_ok transientBot api k a hok maxA 0 (Nat.zero_le k) (by omega)
      (fun j _ hj => hall j hj)
  · intro α api maxA k e hk hall he hne
    constructor
    · exact withRetryGo_fatal transientBot api k e he hne maxA 0 (Nat.zero_le k) (by omega)
        (fun j _ hj => hall j hj)
    · have := withRetryCallsGo_fatal transientBot api k e he hne maxA 0 (Nat.zero_le k)
        (by omega) (fun j _ hj => hall j hj)
      rw [withRetryCalls, this]
      omega
  · intro α api maxA e hm hall hlast
    exact withRetryGo_exhaust transientBot api maxA e hall hlast maxA 0 (by omega) (by omega)
  · intro e
    simp [transientSvc]
  · intro e
    simp [transientBot]

/-- C4 witness: the amended retry-policy theorem applied at concrete
inputs: a 429 then a success for the service policy; an immediate
non-transient 500; and a full budget of transient failures. -/
theorem claim4_retry_policy_amended_witness :
    withRetry transientSvc (fun n => if n = 0 then Except.error ⟨"rate", some 429⟩
      else Except.ok 7) 5 = some (Except.ok 7) ∧
    (withRetry transientSvc (fun _ => (Except.error ⟨"auth", some 500⟩ : Except JsError Nat)) 5
        = some (Except.error ⟨"auth", some 500⟩) ∧
      withRetryCalls transientSvc
        (fun _ => (Except.error ⟨"auth", some 500⟩ : Except JsError Nat)) 5 = 1) ∧
    withRetry transientBot (fun _ => (Except.error ⟨"rate", some 429⟩ : Except JsError Nat)) 5
      = some (Except.error ⟨"rate", some 429⟩) := by
  refine ⟨?_, ?_, ?_⟩
  · exact claim4_retry_policy_amended.1 Nat
      (fun n => if n = 0 then Except.error ⟨"rate", some 429⟩ else Except.ok 7) 5 1 7
      (by omega)
      (fun j hj => ⟨⟨"rate", some 429⟩, by
        have hj0 : j = 0 := by omega
        subst hj0
        exact ⟨rfl, rfl⟩⟩)
      rfl
  · exact claim4_retry_policy_amended.2.1 Nat
      (fun _ => (Except.error ⟨"auth", some 500⟩ : Except JsError Nat)) 5 0
      ⟨"auth", some 500⟩ (by omega) (fun j hj => absurd hj (by omega)) rfl rfl
  · exact claim4_retry_policy_amended.2.2.2.2.2.1 Nat
      (fun _ => (Except.error ⟨"rate", some 429⟩ : Except JsError Nat)) 5 ⟨"rate", some 429⟩
      (by omega) (fun j _ => ⟨⟨"rate", some 429⟩, rfl, rfl⟩) rfl

theorem sendMessagePhase2_okok (parse : String → Except JsError JValue)
    (api : Nat → Except JsError ApiResponse) (st : Sessions) (fs1 : Fs)
    (sid : String) (hist : List Turn) (u : Turn) (r : ApiResponse) (v : JValue)
    (hr : withRetry transientSvc api 5 = some (Except.ok r))
    (hp : parse r.text = Except.ok v) :
    sendMessagePhase2 parse api st fs1 sid hist u =
      ⟨Except.ok v,
       setS st sid ((hist ++ [u]) ++ [⟨"model", [MsgPart.text r.text]⟩]),
       fs1, some (hist ++ [u]), withRetryCalls transientSvc api 5⟩ := by
  unfold sendMessagePhase2
  simp only [hr, hp]

/-- C1 (counterexample): a well-formed-JSON model response that does not
conform to the selected schema is returned as a successful result, not
rejected: with the upstream returning the text "[]" (which `JSON.parse`
accepts as the empty array), `generateStructuredContent` returns the
parsed array although it lacks every required field of the selected
`DefaultSchema`. -/
theorem claim1_counterexample :
    (generateOnce parseStub apiOk emptyF "hello" none).result
      = Except.ok (JValue.jArr []) ∧
    conforms (resolveOnce (detectContentType "hello") "hello").1 (JValue.jArr []) = false := by
  refine ⟨rfl, ?_⟩
  have h : (resolveOnce (detectContentType "hello") "hello").1 = DefaultSchema := rfl
  rw [h, conforms.eq_def]
  rfl

/-- C1 (amended): a successfully returned result is exactly the
`JSON.parse` of the model's response text, independent of whether it
conforms to the selected schema: the service performs no local schema
validation; the selected schema reaches only the upstream request's
`responseSchema` configuration. -/
theorem claim1_no_local_validation :
    (∀ (parse : String → Except JsError JValue) (api : Nat → Except JsError ApiResponse)
        (fs0 : Fs) (prompt : String) (r : ApiResponse) (v : JValue),
      withRetry transientSvc api 5 = some (Except.ok r) →
      parse r.text = Except.ok v →
      (generateOnce parse api fs0 prompt none).result = Except.ok v ∧
      (generateOnce parse api fs0 prompt none).request =
        some (onceRequest [MsgPart.text prompt]
          (resolveOnce (detectContentType prompt) prompt)) ∧
      (onceRequest [MsgPart.text prompt]
          (resolveOnce (detectContentType prompt) prompt)).config.responseSchema =
        (resolveOnce (detectContentType prompt) prompt).1) ∧
    (∀ (parse : String → Except JsError JValue) (api : Nat → Except JsError ApiResponse)
        (st : Sessions) (fs0 : Fs) (sid prompt : String) (hist : List Turn)
        (r : ApiResponse) (v : JValue),
      st sid = some hist →
      withRetry transientSvc api 5 = some (Except.ok r) →
      parse r.text = Except.ok v →
      (sendMessage parse api st fs0 sid prompt none).result = Except.ok v) := by
  constructor
  · intro parse api fs0 prompt r v hr hp
    have he : generateOnce parse api fs0 prompt none
        = generateOncePhase2 parse api fs0 [MsgPart.text prompt]
            (resolveOnce (detectContentType prompt) prompt) := rfl
    rw [he, generateOncePhase2_okok parse api fs0 _ _ r v hr hp]
    exact ⟨rfl, rfl, rfl⟩
  · intro parse api st fs0 sid prompt hist r v hl hr hp
    unfold sendMessage
    simp only [hl]
    rw [sendMessagePhase2_okok parse api st fs0 sid hist _ r v hr hp]

/-- C1 witness: the amended theorem applied to the concrete environment
in which the upstream answers "[]" on the first attempt. -/
theorem claim1_no_local_validation_witness :
    ((generateOnce parseStub apiOk emptyF "hello" none).result
        = Except.ok (JValue.jArr []) ∧
      (generateOnce parseStub apiOk emptyF "hello" none).request =
        some (onceRequest [MsgPart.text "hello"]
          (resolveOnce (detectContentType "hello") "hello")) ∧
      (onceRequest [MsgPart.text "hello"]
          (resolveOnce (detectContentType "hello") "hello")).config.responseSchema =
        (resolveOnce (detectContentType "hello") "hello").1) ∧
    (sendMessage parseStub apiOk (setS emptyS "s" []) emptyF "s" "hi" none).result
      = Except.ok (JValue.jArr []) := by
  constructor
  · exact claim1_no_local_validation.1 parseStub apiOk emptyF "hello" ⟨"[]"⟩
      (JValue.jArr []) rfl rfl
  · exact claim1_no_local_validation.2 parseStub apiOk (setS emptyS "s" []) emptyF "s" "hi"
      [] ⟨"[]"⟩ (JValue.jArr []) rfl rfl rfl

/-- C2 (counterexample): when `JSON.parse` of the model response fails,
the operation does not raise that parse failure verbatim: it raises the
generic wrapper error instead. -/
theorem claim2_counterexample :
    parseStub "not json" = Except.error ⟨"SyntaxError: Unexpected token", none⟩ ∧
    (generateOnce parseStub apiBad emptyF "hello" none).result
      = Except.error onceWrapError ∧
    onceWrapError ≠ (⟨"SyntaxError: Unexpected token", none⟩ : JsError) := by
  refine ⟨rfl, rfl, ?_⟩
  decide

/-- C2 (amended): a JSON-parse failure of the model's response is not
retried — the upstream operation has run exactly once when the first
attempt succeeds — but it is not surfaced verbatim either: both
operations replace it by their generic wrapper error
(`onceWrapError` / `chatWrapError`). -/
theorem claim2_parse_failure_wrapped :
    (∀ (parse : String → Except JsError JValue) (api : Nat → Except JsError ApiResponse)
        (fs0 : Fs) (prompt : String) (r : ApiResponse) (e : JsError),
      api 0 = Except.ok r →
      parse r.text = Except.error e →
      (generateOnce parse api fs0 prompt none).result = Except.error onceWrapError ∧
      (generateOnce parse api fs0 prompt none).apiCalls = 1) ∧
    (∀ (parse : String → Except JsError JValue) (api : Nat → Except JsError ApiResponse)
        (st : Sessions) (fs0 : Fs) (sid prompt : String) (hist : List Turn)
        (r : ApiResponse) (e : JsError),
      st sid = some hist →
      api 0 = Except.ok r →
      parse r.text = Except.error e →
      (sendMessage parse api st fs0 sid prompt none).result = Except.error chatWrapError ∧
      (sendMessage parse api st fs0 sid prompt none).apiCalls = 1) := by
  constructor
  · intro parse api fs0 prompt r e h0 hp
    have hr := withRetry_first_ok transientSvc api 5 r (by omega) h0
    have hc := withRetryCalls_first_ok transientSvc api 5 r (by omega) h0
    have he : generateOnce parse api fs0 prompt none
        = generateOncePhase2 parse api fs0 [MsgPart.text prompt]
            (resolveOnce (detectContentType prompt) prompt) := rfl
    rw [he, generateOncePhase2_parseErr parse api fs0 _ _ r e hr hp]
    exact ⟨rfl, hc⟩
  · intro parse api st fs0 sid prompt hist r e hl h0 hp
    have hr := withRetry_first_ok transientSvc api 5 r (by omega) h0
    have hc := withRetryCalls_first_ok transientSvc api 5 r (by omega) h0
    constructor
    · unfold sendMessage
      simp only [hl]
      rw [sendMessagePhase2_parseErr parse api st fs0 sid hist _ r e hr hp]
    · unfold sendMessage
      simp only [hl]
      rw [sendMessagePhase2_parseErr parse api st fs0 sid hist _ r e hr hp]
      exact hc

/-- C2 witness: the amended theorem at the concrete environment whose
first upstream attempt succeeds with the unparsable text "not json". -/
theorem claim2_parse_failure_wrapped_witness :
    ((generateOnce parseStub apiBad emptyF "hello" none).result
        = Except.error onceWrapError ∧
      (generateOnce parseStub apiBad emptyF "hello" none).apiCalls = 1) ∧
    ((sendMessage parseStub apiBad (setS emptyS "s" []) emptyF "s" "hi" none).result
        = Except.error chatWrapError ∧
      (sendMessage parseStub apiBad (setS emptyS "s" []) emptyF "s" "hi" none).apiCalls = 1) := by
  constructor
  · exact claim2_parse_failure_wrapped.1 parseStub apiBad emptyF "hello" ⟨"not json"⟩
      ⟨"SyntaxError: Unexpected token", none⟩ rfl rfl
  · exact claim2_parse_failure_wrapped.2 parseStub apiBad (setS emptyS "s" []) emptyF "s" "hi"
      [] ⟨"not json"⟩ ⟨"SyntaxError: Unexpected token", none⟩ rfl rfl rfl

/-- C3 (counterexample): reachable session histories need not alternate.
`sendMessage` pushes the user turn before the upstream call and does not
roll it back on failure, so two failing calls leave two consecutive user
turns in the session history. -/
theorem claim3_counterexample :
    ¬ (∀ (ids : List String) (st : Sessions), Reachable ids st →
        ∀ sid hist, st sid = some hist → alternatesFromUser hist = true) := by
  intro hclaim
  have h1 : Reachable ["s"] (startChatSession emptyS "s").2 :=
    Reachable.start [] emptyS "s" Reachable.init
  have h2 : Reachable ["s"]
      (sendMessage parseStub apiBoom (startChatSession emptyS "s").2 emptyF "s" "a" none).sessions :=
    Reachable.send ["s"] _ parseStub apiBoom emptyF "s" "a" none h1
  have h3 : Reachable ["s"]
      (sendMessage parseStub apiBoom
        (sendMessage parseStub apiBoom (startChatSession emptyS "s").2 emptyF "s" "a" none).sessions
        emptyF "s" "b" none).sessions :=
    Reachable.send ["s"] _ parseStub apiBoom emptyF "s" "b" none h2
  have h4 := hclaim _ _ h3 "s"
    [⟨"user", [MsgPart.text "a"]⟩, ⟨"user", [MsgPart.text "b"]⟩] rfl
  have h5 : alternatesFromUser
      [⟨"user", [MsgPart.text "a"]⟩, ⟨"user", [MsgPart.text "b"]⟩] = false := rfl
  rw [h5] at h4
  exact Bool.noConfusion h4

/-- C3 (amended): in every session state reachable by `startChatSession`
and `sendMessage` calls in which every `sendMessage` succeeded, each
session history strictly alternates user and model turns starting with a
user turn; a failed `sendMessage` can instead leave a dangling user turn,
so consecutive user turns are reachable through failing calls. -/
theorem claim3_alternation_on_success (st : Sessions) (sid : String) (hist : List Turn)
    (hr : OkReachable st) (hl : st sid = some hist) :
    alternatesFromUser hist = true :=
  isPairs_alternates hist (okReachable_isPairs st hr sid hist hl)

/-- C3 witness: a successful exchange on a fresh session produces the
alternating history user, model. -/
theorem claim3_alternation_on_success_witness :
    alternatesFromUser [⟨"user", [MsgPart.text "hi"]⟩, ⟨"model", [MsgPart.text "[]"]⟩] = true := by
  have h0 : OkReachable (startChatSession emptyS "s").2 :=
    OkReachable.start emptyS "s" OkReachable.init
  have h1 : OkReachable
      (sendMessage parseStub apiOk (startChatSession emptyS "s").2 emptyF "s" "hi" none).sessions :=
    OkReachable.send _ parseStub apiOk emptyF "s" "hi" none (JValue.jArr []) h0 rfl
  exact claim3_alternation_on_success _ "s" _ h1 rfl

/-- C7: a successful `sendMessage` appends exactly two turns to the
session — a user turn whose first part is the prompt text, then a model
turn carrying the model's raw response text — the transcript sent
upstream for the call is the prior history plus the new user turn, and
any subsequent `sendMessage` on the same session that reaches the
upstream call sends a transcript extending all previously appended turns
in order. -/
theorem claim7_round_trip (parse : String → Except JsError JValue)
    (api : Nat → Except JsError ApiResponse) (st : Sessions) (fs0 : Fs)
    (sid prompt : String) (file : Option FileInfo) (v : JValue)
    (hok : (sendMessage parse api st fs0 sid prompt file).result = Except.ok v) :
    ∃ (hist : List Turn) (u : Turn) (r : ApiResponse),
      st sid = some hist ∧
      u.role = "user" ∧ u.parts.head? = some (MsgPart.text prompt) ∧
      parse r.text = Except.ok v ∧
      (sendMessage parse api st fs0 sid prompt file).sessions sid
        = some (hist ++ [u, ⟨"model", [MsgPart.text r.text]⟩]) ∧
      (sendMessage parse api st fs0 sid prompt file).request = some (hist ++ [u]) ∧
      (∀ (parse2 : String → Except JsError JValue) (api2 : Nat → Except JsError ApiResponse)
          (fs2 : Fs) (prompt2 : String) (file2 : Option FileInfo) (c2 : List Turn),
        (sendMessage parse2 api2 (sendMessage parse api st fs0 sid prompt file).sessions
            fs2 sid prompt2 file2).request = some c2 →
        (hist ++ [u, ⟨"model", [MsgPart.text r.text]⟩]) <+: c2) := by
  obtain ⟨hist, u, r, hlook, hrole, hhead, hretry, hparse, hsess, hreq⟩ :=
    sendMessage_ok parse api st fs0 sid prompt file v hok
  refine ⟨hist, u, r, hlook, hrole, hhead, hparse, ?_, hreq, ?_⟩
  · rw [hsess, setS_same]
  · intro parse2 api2 fs2 prompt2 file2 c2 h2
    obtain ⟨hist2, u2, hl2, hc2⟩ :=
      sendMessage_request_shape parse2 api2 _ fs2 sid prompt2 file2 c2 h2
    rw [hsess, setS_same] at hl2
    cases hl2
    exact hc2 ▸ ⟨[u2], rfl⟩

/-- C7 witness: the round-trip theorem at a concrete successful exchange
on a fresh session. -/
theorem claim7_round_trip_witness :
    ∃ (hist : List Turn) (u : Turn) (r : ApiResponse),
      (setS emptyS "s" []) "s" = some hist ∧
      u.role = "user" ∧ u.parts.head? = some (MsgPart.text "hi") ∧
      parseStub r.text = Except.ok (JValue.jArr []) ∧
      (sendMessage parseStub apiOk (setS emptyS "s" []) emptyF "s" "hi" none).sessions "s"
        = some (hist ++ [u, ⟨"model", [MsgPart.text r.text]⟩]) ∧
      (sendMessage parseStub apiOk (setS emptyS "s" []) emptyF "s" "hi" none).request
        = some (hist ++ [u]) ∧
      (∀ (parse2 : String → Except JsError JValue) (api2 : Nat → Except JsError ApiResponse)
          (fs2 : Fs) (prompt2 : String) (file2 : Option FileInfo) (c2 : List Turn),
        (sendMessage parse2 api2
            (sendMessage parseStub apiOk (setS emptyS "s" []) emptyF "s" "hi" none).sessions
            fs2 "s" prompt2 file2).request = some c2 →
        (hist ++ [u, ⟨"model", [MsgPart.text r.text]⟩]) <+: c2) :=
  claim7_round_trip parseStub apiOk (setS emptyS "s" []) emptyF "s" "hi" none
    (JValue.jArr []) rfl

/-- C8: `sendMessage` with a session identifier never returned by
`startChatSession` fails with the invalid-session error — raised outside
the try/catch, so distinct from the wrapped upstream-failure errors —
and leaves the session store and filesystem unchanged, sends no request
upstream and performs zero upstream calls. -/
theorem claim8_unknown_session (ids : List String) (st : Sessions) (sid : String)
    (parse : String → Except JsError JValue) (api : Nat → Except JsError ApiResponse)
    (fs : Fs) (prompt : String) (file : Option FileInfo)
    (hre : Reachable ids st) (hnc : sid ∉ ids) :
    (sendMessage parse api st fs sid prompt file).result = Except.error invalidSessionError ∧
    (sendMessage parse api st fs sid prompt file).sessions = st ∧
    (sendMessage parse api st fs sid prompt file).fs = fs ∧
    (sendMessage parse api st fs sid prompt file).request = none ∧
    (sendMessage parse api st fs sid prompt file).apiCalls = 0 ∧
    invalidSessionError ≠ chatWrapError ∧
    invalidSessionError ≠ onceWrapError := by
  have hl : st sid = none := reachable_not_created ids st hre sid hnc
  unfold sendMessage
  simp only [hl]
  refine ⟨?_, ?_, ?_, ?_, ?_, ?_, ?_⟩ <;> first | rfl | trivial

/-- C8 witness: the unknown-session theorem on the empty store. -/
theorem claim8_unknown_session_witness :
    (sendMessage parseStub apiOk emptyS emptyF "ghost" "hi" none).result
      = Except.error invalidSessionError ∧
    (sendMessage parseStub apiOk emptyS emptyF "ghost" "hi" none).sessions = emptyS ∧
    (sendMessage parseStub apiOk emptyS emptyF "ghost" "hi" none).fs = emptyF ∧
    (sendMessage parseStub apiOk emptyS emptyF "ghost" "hi" none).request = none ∧
    (sendMessage parseStub apiOk emptyS emptyF "ghost" "hi" none).apiCalls = 0 ∧
    invalidSessionError ≠ chatWrapError ∧
    invalidSessionError ≠ onceWrapError :=
  claim8_unknown_session [] emptyS "ghost" parseStub apiOk emptyF "hi" none
    Reachable.init (List.not_mem_nil "ghost")

/-- C9: when a call includes an attachment whose staged file exists at
read time, the staged file is deleted before the upstream invocation, so
it no longer exists after the call whatever the outcome of the upstream
call or of response parsing — for `generateStructuredContent` and for
`sendMessage` on a known session alike. -/
theorem claim9_attachment_cleanup (parse parse2 : String → Except JsError JValue)
    (api api2 : Nat → Except JsError ApiResponse) (fs0 : Fs) (prompt prompt2 : String)
    (f : FileInfo) (b : String) (st : Sessions) (sid : String) (hist : List Turn) :
    (fs0 (uploadsPath f.filename) = some b →
      (generateOnce parse api fs0 prompt (some f)).fs (uploadsPath f.filename) = none) ∧
    (st sid = some hist → fs0 (uploadsPath f.filename) = some b →
      (sendMessage parse2 api2 st fs0 sid prompt2 (some f)).fs (uploadsPath f.filename) = none) := by
  constructor
  · intro hb
    unfold generateOnce
    simp only [hb]
    rw [generateOncePhase2_fs]
    simp [removeF]
  · intro hl hb
    unfold sendMessage
    simp only [hl, hb]
    rw [sendMessagePhase2_fs]
    simp [removeF]

/-- C9 witness: the cleanup theorem on a staging filesystem holding one
file, for a stateless call with a failing upstream and for a session call
with a succeeding upstream. -/
theorem claim9_attachment_cleanup_witness :
    (generateOnce parseStub apiBoom
        (fun q => if q = uploadsPath "a.png" then some "bytes" else none)
        "hello" (some ⟨"a.png", "image/png"⟩)).fs (uploadsPath "a.png") = none ∧
    (sendMessage parseStub apiOk (setS emptyS "s" [])
        (fun q => if q = uploadsPath "a.png" then some "bytes" else none)
        "s" "hi" (some ⟨"a.png", "image/png"⟩)).fs (uploadsPath "a.png") = none := by
  constructor
  · exact (claim9_attachment_cleanup parseStub parseStub apiBoom apiOk
      (fun q => if q = uploadsPath "a.png" then some "bytes" else none)
      "hello" "hi" ⟨"a.png", "image/png"⟩ "bytes" (setS emptyS "s" []) "s" []).1 rfl
  · exact (claim9_attachment_cleanup parseStub parseStub apiBoom apiOk
      (fun q => if q = uploadsPath "a.png" then some "bytes" else none)
      "hello" "hi" ⟨"a.png", "image/png"⟩ "bytes" (setS emptyS "s" []) "s" []).2 rfl rfl
